import Mathlib

/-!
Verification of the two command-line scripts of this repository:
`cluster-config/apps/llm/scripts/generate_wan_t2v.py` (a ComfyUI client that
builds a node-graph JSON payload, submits it, polls the history endpoint and
downloads the resulting files) and `scripts/batch_generate.py` (a batch loop
issuing POST requests and writing each response body to a file).

The scripts are shallowly embedded: Python dicts that preserve insertion
order become association lists, JSON scalars become an inductive value type
(floats are carried verbatim as `Rat` tokens — the scripts never compute
with them), fallible steps return `Except`, and the ambient effects of
`main` (HTTP requests, the port-forward child process) are modelled by an
oracle `World` and an event trace.
-/

namespace WanT2V

/-- A JSON scalar or node-reference as it appears in the ComfyUI prompt
payload.  `q` carries float literals verbatim (no arithmetic is done on
them); `ref` is the two-element list `[node_id, output_index]`. -/
inductive JVal where
  | s (v : String)
  | i (v : Int)
  | q (v : Rat)
  | b (v : Bool)
  | ref (node : String) (out : Nat)
  deriving Repr, DecidableEq

/-- A node of the prompt graph: `class_type` plus the ordered `inputs` dict. -/
structure Node where
  class_type : String
  inputs : List (String × JVal)
  deriving Repr, DecidableEq

/-- The prompt payload: the ordered dict of node-id to node, as built by
`build_prompt` (Python dicts preserve insertion order). -/
abbrev Prompt := List (String × Node)

/-- `build_prompt` of `generate_wan_t2v.py` (lines 14–139): builds the fixed
node graph, then conditionally appends the `SaveAnimatedWEBP` ("28"),
`SaveWEBM` ("47") and `SaveImage` ("10") output nodes. -/
def build_prompt (prompt_text negative_text : String) (seed : Int)
    (width height frames steps : Int) (cfg : Rat) (sampler scheduler : String)
    (denoise : Rat) (clip_name unet_name vae_name : String)
    (fps_webm fps_webp : Int) ( filename_prefix : String)
    (include_webm include_webp include_images : Bool) : Prompt :=
  let base : Prompt := [
    ("37", ⟨"UNETLoader",
      [("unet_name", .s unet_name), ("weight_dtype", .s "default")]⟩),
    ("38", ⟨"CLIPLoader",
      [("clip_name", .s clip_name), ("type", .s "wan"), ("device", .s "default")]⟩),
    ("39", ⟨"VAELoader", [("vae_name", .s vae_name)]⟩),
    ("40", ⟨"EmptyHunyuanLatentVideo",
      [("width", .i width), ("height", .i height), ("length", .i frames),
       ("batch_size", .i 1)]⟩),
    ("6", ⟨"CLIPTextEncode", [("clip", .ref "38" 0), ("text", .s prompt_text)]⟩),
    ("7", ⟨"CLIPTextEncode", [("clip", .ref "38" 0), ("text", .s negative_text)]⟩),
    ("3", ⟨"KSampler",
      [("model", .ref "37" 0), ("positive", .ref "6" 0), ("negative", .ref "7" 0),
       ("latent_image", .ref "40" 0), ("seed", .i seed), ("steps", .i steps),
       ("cfg", .q cfg), ("sampler_name", .s sampler), ("scheduler", .s scheduler),
       ("denoise", .q denoise)]⟩),
    ("8", ⟨"VAEDecode", [("samples", .ref "3" 0), ("vae", .ref "39" 0)]⟩)]
  let p1 := if include_webp then
      base ++ [("28", ⟨"SaveAnimatedWEBP",
        [("images", .ref "8" 0), ("filename_prefix", .s filename_prefix),
         ("fps", .i fps_webp), ("lossless", .b false), ("quality", .i 90),
         ("method", .s "default")]⟩)]
    else base
  let p2 := if include_webm then
      p1 ++ [("47", ⟨"SaveWEBM",
        [("images", .ref "8" 0), ("filename_prefix", .s filename_prefix),
         ("codec", .s "vp9"), ("fps", .i fps_webm), ("crf", .i 32)]⟩)]
    else p1
  if include_images then
    p2 ++ [("10", ⟨"SaveImage",
      [("images", .ref "8" 0), ("filename_prefix", .s filename_prefix)]⟩)]
  else p2

/-- `include_webm` flag of `main` (line 324): video mode with webm or both. -/
def includeWebm (mode format : String) : Bool :=
  mode == "video" && (format == "webm" || format == "both")

/-- `include_webp` flag of `main` (line 325): video mode with webp or both. -/
def includeWebp (mode format : String) : Bool :=
  mode == "video" && (format == "webp" || format == "both")

/-- `include_images` flag of `main` (line 326). -/
def includeImages (mode : String) : Bool := mode == "image"

/-- The `status` object of a history entry: `completed` as read by
`status.get("completed")` (missing key reads as false), `status_str` and
`messages` kept optional since `.get` returns `None` when absent. -/
structure Status where
  completed : Bool
  status_str : Option String
  messages : Option (List String)
  deriving Repr, DecidableEq

/-- One item of an output's `images`/`videos`/`gifs` list.  `file` is a dict
carrying a `"filename"` key (with the optional `subfolder` and `type` keys
read by `download_file`); `other` is any item that is not a dict with a
`"filename"` key — `extract_files` skips it. -/
inductive Item where
  | file (filename : String) (subfolder : Option String) (ftype : Option String)
  | other
  deriving Repr, DecidableEq

/-- One value of the history entry's `outputs` dict. -/
structure Output where
  images : Option (List Item)
  videos : Option (List Item)
  gifs : Option (List Item)
  deriving Repr, DecidableEq

/-- A history entry `resp[prompt_id]`.  `status` is `none` when the key is
missing or its value is falsy (`entry.get("status") or {}`); `outputs`
likewise (`history_entry.get("outputs") or {}`), kept in dict order. -/
structure HistoryEntry where
  status : Option Status
  outputs : Option (List Output)
  deriving Repr, DecidableEq

/-- `entry.get("status") or {}` followed by `.get(...)` reads: an absent or
falsy status dict yields falsy `completed` and `None` for the other keys. -/
def statusOf (e : HistoryEntry) : Status := e.status.getD ⟨false, none, none⟩

/-- Result of `wait_for_prompt`: the returned entry, the `RuntimeError`
raised on a completed-but-not-success status (carrying that status — the
claims never inspect the formatted message), or the `TimeoutError`. -/
inductive WaitResult where
  | success (e : HistoryEntry)
  | genError (st : Status)
  | timeout
  deriving Repr, DecidableEq

/-- The `while time.time() < deadline` loop of `wait_for_prompt` (lines
240–251).  Time is discrete: `hist t` is the history response fetched at
time `t` (`none` when `prompt_id not in resp`), and one iteration advances
the clock by `poll + 1` — `poll` ticks for `time.sleep(poll_interval)` plus
at least one tick for the HTTP round-trip, whose duration is positive. -/
def waitLoop (hist : Nat → Option HistoryEntry) (deadline poll t : Nat) :
    WaitResult :=
  if _h : t < deadline then
    match hist t with
    | some entry =>
      let st := statusOf entry
      if st.completed then
        if st.status_str ≠ some "success" then .genError st
        else .success entry
      else waitLoop hist deadline poll (t + poll + 1)
    | none => waitLoop hist deadline poll (t + poll + 1)
  else .timeout
termination_by deadline - t
decreasing_by omega

/-- `wait_for_prompt` (lines 237–251): the deadline is the start time plus
the timeout, and polling begins at the start time. -/
def wait_for_prompt (hist : Nat → Option HistoryEntry)
    (timeout poll start : Nat) : WaitResult :=
  waitLoop hist (start + timeout) poll start

/-- `extract_files` (lines 254–265): over the outputs dict's values, for
each of the keys `images`, `videos`, `gifs` in order, collect the items
that are dicts carrying a `"filename"` key.  An absent or empty list is
skipped (`if not items: continue`), which collects nothing either way. -/
def extract_files (entry : HistoryEntry) : List Item :=
  (entry.outputs.getD []).flatMap fun o =>
    ([o.images, o.videos, o.gifs].flatMap fun items =>
      (items.getD []).filter fun it =>
        match it with
        | .file _ _ _ => true
        | .other => false)

/-- Index of the last occurrence of `c` in `l`, or `none`. -/
def lastIndexOf (c : Char) (l : List Char) : Option Nat :=
  (List.range l.length).foldl
    (fun acc k => if l.get? k = some c then some k else acc) none

/-- The extension part of `os.path.splitext` (posix): the suffix from the
last dot, provided the last dot lies after the last `/` and some character
strictly between the last `/` and that dot is not itself a dot (leading
dots of the basename never start an extension, so `.bashrc` has none). -/
def splitext_ext (p : String) : String :=
  let l := p.toList
  let sepIdx : Int := match lastIndexOf '/' l with | some i => (i : Int) | none => -1
  let dotIdx : Int := match lastIndexOf '.' l with | some i => (i : Int) | none => -1
  if sepIdx < dotIdx ∧
      (List.range l.length).any
        (fun k => decide (sepIdx < (k : Int)) && decide ((k : Int) < dotIdx) &&
          (l.getD k '.' != '.')) then
    String.mk (l.drop dotIdx.toNat)
  else ""

/-- ASCII lowering of a string, as `.lower()` acts on the ASCII filename
extensions this script compares against. -/
def lowerStr (s : String) : String := String.mk (s.toList.map Char.toLower)

/-- The filename read off an item by `file_info["filename"]` (only ever
applied to items that `extract_files` kept, which all carry one). -/
def itemFilename : Item → String
  | .file fn _ _ => fn
  | .other => ""

/-- The per-file filter of the download loop (`main`, lines 398–404): in
video mode, a file whose lowercased extension is not `.webm` (when format
is webm) or not `.webp` (when format is webp) is skipped by `continue`. -/
def fileSelected (mode format fn : String) : Bool :=
  let ext := lowerStr (splitext_ext fn)
  if mode == "video" then
    if format == "webm" && ext != ".webm" then false
    else if format == "webp" && ext != ".webp" then false
    else true
  else true

/-- The download loop of `main` (lines 398–407): one `download_file` call —
hence exactly one local write of `run_dir / filename` (lines 278–280) — per
extracted item passing the mode/format filter, in list order.  Returns the
filenames written. -/
def download_files (mode format : String) (files : List Item) : List String :=
  files.filterMap fun it =>
    if fileSelected mode format (itemFilename it) then some (itemFilename it)
    else none

/-- The post-wait step of one `main` iteration (lines 393–407): extract the
files, raise when none were found, otherwise download the selected ones. -/
def main_files_step (mode format : String) (entry : HistoryEntry) :
    Except String (List String) :=
  let files := extract_files entry
  if files.isEmpty then .error "No output files found in history response."
  else .ok (download_files mode format files)

/-- The seed-list loop of `main` (lines 337–342): for `i in range(count)`,
append `randrange(0, 2**63)` — modelled as the `i`-th value of the
`SystemRandom` stream `draws` — when `--seed` was not given, else
`args.seed + i`. -/
def build_seeds (count : Int) (seed : Option Int) (draws : Nat → Int) :
    List Int :=
  (List.range count.toNat).map fun i =>
    match seed with
    | none => draws i
    | some s => s + i

/-- `if args.mode == "image" and args.frames != 1: args.frames = 1`
(lines 329–330): the frames value `main` passes to `build_prompt`. -/
def effectiveFrames (mode : String) (frames : Int) : Int :=
  if mode == "image" && frames != 1 then 1 else frames

/-- The externally observable actions of one run of `main`, in order. -/
inductive Event where
  | exit (msg : String)
  | pfStart
  | preflight
  | submitted (i : Nat)
  | downloaded (fn : String)
  | pfTerminate
  | errored (msg : String)
  | done
  deriving Repr, DecidableEq

/-- The environment `main` runs against: initial reachability of the
ComfyUI URL, whether the server becomes reachable after the port-forward,
whether `preflight_check` finds all three models, the `/prompt` response
per job index, and the history responses per prompt id and poll time. -/
structure World where
  reachable : Bool
  pfReachable : Bool
  preflightOk : Bool
  submit : Nat → Except String String
  hist : String → Nat → Option HistoryEntry

/-- The parsed CLI arguments `main` consumes (beyond fixed constants). -/
structure Args where
  mode : String
  format : String
  count : Int
  seed : Option Int
  port_forward : Bool
  skip_check : Bool
  deriving Repr

/-- One iteration of the generation loop of `main` (lines 364–407) for job
index `i`: submit the prompt (the POST happens even when the server answers
with an error body), wait for it, then extract and download the files.  Any
raise ends the loop with that error. -/
def jobStep (w : World) (a : Args) (i : Nat) :
    List Event × Except String Unit :=
  match w.submit i with
  | .error e => ([.submitted i], .error e)
  | .ok pid =>
    match wait_for_prompt (w.hist pid) 3600 5 0 with
    | .timeout => ([.submitted i], .error "Timed out waiting for ComfyUI to finish.")
    | .genError _ => ([.submitted i], .error "Generation failed")
    | .success entry =>
      match main_files_step a.mode a.format entry with
      | .error e => ([.submitted i], .error e)
      | .ok written => (.submitted i :: written.map Event.downloaded, .ok ())

/-- The generation loop over the job indices, stopping at the first raise. -/
def jobsLoop (w : World) (a : Args) : List Nat → List Event × Except String Unit
  | [] => ([], .ok ())
  | i :: rest =>
    let s := jobStep w a i
    match s.2 with
    | .error e => (s.1, .error e)
    | .ok _ =>
      let r := jobsLoop w a rest
      (s.1 ++ r.1, r.2)

/-- `main` (lines 300–415) as an event trace: the mode/format guard runs
first (line 327, a `SystemExit` before the `try` block); inside the `try`,
the reachability check may start the port-forward child, then the optional
preflight check, then the generation loop; the `finally` (lines 408–411)
terminates the child whenever one was started, before the run ends with its
result.  Exceptions propagate after the `finally` runs. -/
def main_run (w : World) (a : Args) : List Event :=
  if a.mode == "video" && !(includeWebm a.mode a.format || includeWebp a.mode a.format) then
    [.exit "Select at least one video format."]
  else
    let pfStarted := !w.reachable && a.port_forward
    let pre : List Event × Option String :=
      if w.reachable then ([], none)
      else if !a.port_forward then
        ([], some "ComfyUI is not reachable. Use --port-forward or set --comfy-url.")
      else if w.pfReachable then ([.pfStart], none)
      else ([.pfStart], some "Port-forward started, but ComfyUI is not reachable.")
    let body : List Event × Except String Unit :=
      match pre.2 with
      | some msg => (pre.1, .error msg)
      | none =>
        if a.skip_check then
          let r := jobsLoop w a (List.range a.count.toNat)
          (pre.1 ++ r.1, r.2)
        else if !w.preflightOk then
          (pre.1 ++ [.preflight], .error "Missing model files in ComfyUI.")
        else
          let r := jobsLoop w a (List.range a.count.toNat)
          (pre.1 ++ [.preflight] ++ r.1, r.2)
    let fin : List Event := if pfStarted then [.pfTerminate] else []
    let last : Event := match body.2 with | .error msg => .errored msg | .ok _ => .done
    body.1 ++ fin ++ [last]

end WanT2V

namespace BatchGen

/-- An HTTP response as `scripts/batch_generate.py` consumes it: status
code and body bytes. -/
structure HttpResp where
  status : Nat
  content : List Nat
  deriving Repr, DecidableEq

/-- The condition under which `requests.Response.raise_for_status` raises
`HTTPError`: a client-error (4xx) or server-error (5xx) status code. -/
def isHttpError (r : HttpResp) : Prop := 400 ≤ r.status ∧ r.status < 600

instance (r : HttpResp) : Decidable (isHttpError r) :=
  inferInstanceAs (Decidable (_ ∧ _))

/-- `requests.Response.raise_for_status`: raises `HTTPError` exactly for
client-error (4xx) and server-error (5xx) status codes. -/
def raise_for_status (r : HttpResp) : Except String Unit :=
  if isHttpError r then
    .error ("HTTP error " ++ toString r.status)
  else .ok ()

/-- Python's `f"{idx:02d}"` for a non-negative index: zero-padded to at
least two digits. -/
def fmt02 (i : Nat) : String := if i < 10 then "0" ++ toString i else toString i

/-- The output filename `f"{prefix}_{idx:02d}.png"` (line 17). -/
def out_name (pre : String) (idx : Nat) : String :=
  pre ++ "_" ++ fmt02 idx ++ ".png"

/-- The body of `generate` (lines 16–27) over the remaining indices:
`resp i` is the response to the `i`-th POST.  Returns the indices POSTed,
the `(filename, bytes)` pairs written by `target.write_bytes` in order, and
the result; `raise_for_status` aborts the loop before the write. -/
def genLoop (resp : Nat → HttpResp) (pre : String) :
    List Nat → List Nat × List (String × List Nat) × Except String Unit
  | [] => ([], [], .ok ())
  | idx :: rest =>
    match raise_for_status (resp idx) with
    | .error e => ([idx], [], .error e)
    | .ok _ =>
      let r := genLoop resp pre rest
      (idx :: r.1, (out_name pre idx, (resp idx).content) :: r.2.1, r.2.2)

/-- `generate` (lines 13–27): loop over `range(1, count + 1)`.  The session,
delay and progress printing do not affect the files written. -/
def generate (resp : Nat → HttpResp) (pre : String) (count : Nat) :
    List Nat × List (String × List Nat) × Except String Unit :=
  genLoop resp pre ((List.range count).map (· + 1))

end BatchGen

namespace WanT2V

/-- C5: `build_prompt` is a pure, deterministic function of its arguments:
for every fixed assignment of prompt text, negative text, seed, dimensions,
frames, sampler parameters, model names, fps values, filename prefix and
format flags, any two invocations with componentwise-equal arguments return
equal payloads.  In the embedding `build_prompt` is a function of exactly
these arguments, so the payload depends on nothing outside them. -/
theorem build_prompt_deterministic
    (pt pt' nt nt' : String) (sd sd' wi wi' he he' fr fr' st st' : Int)
    (cf cf' : Rat) (sa sa' sc sc' : String) (dn dn' : Rat)
    (cn cn' un un' vn vn' : String) (fm fm' fp fp' : Int) (px px' : String)
    (iw iw' ip ip' ii ii' : Bool)
    (h1 : pt = pt') (h2 : nt = nt') (h3 : sd = sd') (h4 : wi = wi')
    (h5 : he = he') (h6 : fr = fr') (h7 : st = st') (h8 : cf = cf')
    (h9 : sa = sa') (h10 : sc = sc') (h11 : dn = dn') (h12 : cn = cn')
    (h13 : un = un') (h14 : vn = vn') (h15 : fm = fm') (h16 : fp = fp')
    (h17 : px = px') (h18 : iw = iw') (h19 : ip = ip') (h20 : ii = ii') :
    build_prompt pt nt sd wi he fr st cf sa sc dn cn un vn fm fp px iw ip ii =
      build_prompt pt' nt' sd' wi' he' fr' st' cf' sa' sc' dn' cn' un' vn'
        fm' fp' px' iw' ip' ii' := by
  subst h1 h2 h3 h4 h5 h6 h7 h8 h9 h10 h11 h12 h13 h14 h15 h16 h17 h18 h19 h20
  rfl

/-- Witness for C5 at a concrete argument assignment. -/
theorem build_prompt_deterministic_witness :
    build_prompt "cat" "blur" 3 512 320 16 25 6 "uni_pc" "simple" 1
        "clip" "unet" "vae" 24 16 "wan_t2v_01" true false false =
      build_prompt "cat" "blur" 3 512 320 16 25 6 "uni_pc" "simple" 1
        "clip" "unet" "vae" 24 16 "wan_t2v_01" true false false :=
  build_prompt_deterministic "cat" "cat" "blur" "blur" 3 3 512 512 320 320
    16 16 25 25 6 6 "uni_pc" "uni_pc" "simple" "simple" 1 1 "clip" "clip"
    "unet" "unet" "vae" "vae" 24 24 16 16 "wan_t2v_01" "wan_t2v_01"
    true true false false false false rfl rfl rfl rfl rfl rfl rfl rfl rfl
    rfl rfl rfl rfl rfl rfl rfl rfl rfl rfl rfl

/-- C9: in image mode the latent-video node "40" of every built payload has
`length` exactly 1, whatever `--frames` was supplied: `main` (lines 329–330)
overrides the frames value before calling `build_prompt`. -/
theorem image_mode_frames_one (mode : String) (hm : mode = "image")
    (pt nt : String) (sd wi he fr st : Int) (cf : Rat) (sa sc : String)
    (dn : Rat) (cn un vn : String) (fm fp : Int) (px : String)
    (iw ip ii : Bool) :
    (build_prompt pt nt sd wi he (effectiveFrames mode fr) st cf sa sc dn
        cn un vn fm fp px iw ip ii).lookup "40" =
      some ⟨"EmptyHunyuanLatentVideo",
        [("width", .i wi), ("height", .i he), ("length", .i 1),
         ("batch_size", .i 1)]⟩ := by
  subst hm
  have hf : effectiveFrames "image" fr = 1 := by
    unfold effectiveFrames
    by_cases h : fr = 1 <;> simp [h]
  rw [hf]
  unfold build_prompt
  cases iw <;> cases ip <;> cases ii <;> simp [List.lookup]

/-- Witness for C9 at a concrete argument assignment with `--frames 16`. -/
theorem image_mode_frames_one_witness :
    (build_prompt "cat" "blur" 3 512 320 (effectiveFrames "image" 16) 25 6
        "uni_pc" "simple" 1 "clip" "unet" "vae" 24 16 "wan_t2i_01"
        false false true).lookup "40" =
      some ⟨"EmptyHunyuanLatentVideo",
        [("width", .i 512), ("height", .i 320), ("length", .i 1),
         ("batch_size", .i 1)]⟩ :=
  image_mode_frames_one "image" rfl "cat" "blur" 3 512 320 16 25 6
    "uni_pc" "simple" 1 "clip" "unet" "vae" 24 16 "wan_t2i_01"
    false false true

/-- The events of a single job step are only `submitted` and `downloaded`;
in particular the step never starts a port-forward. -/
theorem jobStep_no_pfStart (w : World) (a : Args) (i : Nat) :
    Event.pfStart ∉ (jobStep w a i).1 := by
  unfold jobStep
  cases hs : w.submit i with
  | error e => simp
  | ok pid =>
    cases hw : wait_for_prompt (w.hist pid) 3600 5 0 with
    | timeout => simp [hw]
    | genError st => simp [hw]
    | success entry =>
      cases hm : main_files_step a.mode a.format entry with
      | error e => simp [hw, hm]
      | ok written => simp [hw, hm, List.mem_map]

/-- The generation loop never starts a port-forward. -/
theorem jobsLoop_no_pfStart (w : World) (a : Args) (l : List Nat) :
    Event.pfStart ∉ (jobsLoop w a l).1 := by
  induction l with
  | nil => simp [jobsLoop]
  | cons i rest ih =>
    have hstep := jobStep_no_pfStart w a i
    cases hres : (jobStep w a i).2 with
    | error e =>
      simp only [jobsLoop, hres]
      simpa using hstep
    | ok u =>
      simp only [jobsLoop, hres, List.mem_append]
      intro hmem
      rcases hmem with hmem | hmem
      · exact hstep hmem
      · exact ih hmem

/-- C7: invalid mode/format combinations are rejected before any request:
whenever the parsed `mode` is `"video"` and the format selection enables
neither the webm nor the webp output node, `main` raises `SystemExit`
(line 328) and the trace holds no preflight check and no prompt
submission. -/
theorem invalid_video_format_exits (w : World) (a : Args)
    (hm : a.mode = "video")
    (hw : includeWebm a.mode a.format = false)
    (hp : includeWebp a.mode a.format = false) :
    main_run w a = [Event.exit "Select at least one video format."] ∧
    Event.preflight ∉ main_run w a ∧
    ∀ i, Event.submitted i ∉ main_run w a := by
  have hguard : (a.mode == "video" &&
      !(includeWebm a.mode a.format || includeWebp a.mode a.format)) = true := by
    rw [hm] at hw hp ⊢
    simp [hw, hp]
  have htrace : main_run w a = [Event.exit "Select at least one video format."] := by
    unfold main_run
    rw [if_pos hguard]
  refine ⟨htrace, ?_, ?_⟩
  · rw [htrace]; simp
  · intro i; rw [htrace]; simp

/-- Witness for C7: a parsed argument set with mode `"video"` and a format
string enabling neither output node is rejected up front. -/
theorem invalid_video_format_exits_witness :
    main_run ⟨true, true, true, fun _ => .error "", fun _ _ => none⟩
        ⟨"video", "gif", 1, none, false, false⟩ =
      [Event.exit "Select at least one video format."] :=
  (invalid_video_format_exits _ _ rfl (by decide) (by decide)).1

/-- C8: on every execution path — normal completion, generation error,
timeout, any other raise — if the port-forward child was started then the
`finally` block (lines 408–411) terminates it before the run ends. -/
theorem port_forward_terminated (w : World) (a : Args)
    (h : Event.pfStart ∈ main_run w a) :
    Event.pfTerminate ∈ main_run w a := by
  unfold main_run at h ⊢
  by_cases hg : (a.mode == "video" &&
      !(includeWebm a.mode a.format || includeWebp a.mode a.format)) = true
  · rw [if_pos hg] at h
    simp at h
  · rw [if_neg hg] at h ⊢
    by_cases hr : w.reachable
    · exfalso
      have hjobs := jobsLoop_no_pfStart w a (List.range a.count.toNat)
      by_cases hsk : a.skip_check
      · cases hres : (jobsLoop w a (List.range a.count.toNat)).2 <;>
          simp [hr, hsk, hres] at h <;> exact hjobs h
      · by_cases hpre : w.preflightOk
        · cases hres : (jobsLoop w a (List.range a.count.toNat)).2 <;>
            simp [hr, hsk, hpre, hres] at h <;> exact hjobs h
        · simp [hr, hsk, hpre] at h
    · by_cases hpf : a.port_forward
      · by_cases hpr : w.pfReachable
        · by_cases hsk : a.skip_check
          · cases hres : (jobsLoop w a (List.range a.count.toNat)).2 <;>
              simp [hr, hpf, hpr, hsk, hres]
          · by_cases hpre : w.preflightOk
            · cases hres : (jobsLoop w a (List.range a.count.toNat)).2 <;>
                simp [hr, hpf, hpr, hsk, hpre, hres]
            · simp [hr, hpf, hpr, hsk, hpre]
        · simp [hr, hpf, hpr]
      · simp [hr, hpf] at h

/-- Helper for C2: whatever the current time, when no history response ever
reports the completion flag the loop reaches the deadline and times out. -/
theorem waitLoop_timeout_of_never_completed (hist : Nat → Option HistoryEntry)
    (deadline poll : Nat)
    (h : ∀ t e, hist t = some e → (statusOf e).completed = false) :
    ∀ t, waitLoop hist deadline poll t = .timeout := by
  have key : ∀ n t, deadline - t ≤ n → waitLoop hist deadline poll t = .timeout := by
    intro n
    induction n with
    | zero =>
      intro t ht
      rw [waitLoop]
      have : ¬ t < deadline := by omega
      simp [this]
    | succ n ih =>
      intro t ht
      rw [waitLoop]
      by_cases hd : t < deadline
      · cases hh : hist t with
        | none =>
          simp [hd, hh]
          exact ih (t + poll + 1) (by omega)
        | some e =>
          have hc := h t e hh
          simp [hd, hh, hc]
          exact ih (t + poll + 1) (by omega)
      · simp [hd]
  intro t
  exact key (deadline - t) t (le_refl _)

/-- C2: for every timeout and poll interval, if no poll of the history
endpoint ever observes the completion flag then `wait_for_prompt`
terminates — the loop's clock strictly advances each iteration, so
`waitLoop` is total — and raises `TimeoutError` once the deadline
(start time plus timeout) has elapsed, never returning an entry. -/
theorem wait_for_prompt_times_out (hist : Nat → Option HistoryEntry)
    (timeout poll start : Nat)
    (h : ∀ t e, hist t = some e → (statusOf e).completed = false) :
    wait_for_prompt hist timeout poll start = .timeout :=
  waitLoop_timeout_of_never_completed hist (start + timeout) poll h start

/-- Witness for C2: a server that never lists the prompt id times out. -/
theorem wait_for_prompt_times_out_witness :
    wait_for_prompt (fun _ => none) 7 2 3 = WaitResult.timeout :=
  wait_for_prompt_times_out (fun _ => none) 7 2 3 (by intro t e he; cases he)

/-- C3: a poll that observes a history entry reporting completion with a
status string other than `"success"` makes the loop raise the generation
error for that status rather than return the entry; and the loop returns an
entry only when that entry reports completion with status `"success"`. -/
theorem wait_non_success_raises (hist : Nat → Option HistoryEntry)
    (deadline poll t : Nat) :
    (∀ e, t < deadline → hist t = some e → (statusOf e).completed = true →
        (statusOf e).status_str ≠ some "success" →
        waitLoop hist deadline poll t = .genError (statusOf e)) ∧
    (∀ e, waitLoop hist deadline poll t = .success e →
        (statusOf e).completed = true ∧
        (statusOf e).status_str = some "success") := by
  constructor
  · intro e hd he hc hs
    rw [waitLoop]
    simp [hd, he, hc, hs]
  · have key : ∀ n t, deadline - t ≤ n → ∀ e,
        waitLoop hist deadline poll t = .success e →
        (statusOf e).completed = true ∧
        (statusOf e).status_str = some "success" := by
      intro n
      induction n with
      | zero =>
        intro t ht e hsucc
        rw [waitLoop] at hsucc
        have : ¬ t < deadline := by omega
        simp [this] at hsucc
      | succ n ih =>
        intro t ht e hsucc
        rw [waitLoop] at hsucc
        by_cases hd : t < deadline
        · simp [hd] at hsucc
          cases hh : hist t with
          | none =>
            rw [hh] at hsucc
            exact ih (t + poll + 1) (by omega) e hsucc
          | some e2 =>
            rw [hh] at hsucc
            by_cases hc : (statusOf e2).completed
            · by_cases hs : (statusOf e2).status_str = some "success"
              · simp [hc, hs] at hsucc
                subst hsucc
                exact ⟨hc, hs⟩
              · simp [hc, hs] at hsucc
            · simp [hc] at hsucc
              exact ih (t + poll + 1) (by omega) e hsucc
        · simp [hd] at hsucc
    exact fun e hsucc => key (deadline - t) t (le_refl _) e hsucc

/-- Witness for C3 at a concrete failing status. -/
theorem wait_non_success_raises_witness :
    waitLoop (fun _ => some ⟨some ⟨true, some "error", some ["boom"]⟩, none⟩)
        10 5 0 = .genError ⟨true, some "error", some ["boom"]⟩ :=
  (wait_non_success_raises (fun _ => some ⟨some ⟨true, some "error", some ["boom"]⟩, none⟩)
      10 5 0).1 _ (by omega) rfl rfl (by simp [statusOf])

/-- Witness for C8: an unreachable server with `--port-forward` starts the
child, and the trace terminates it. -/
theorem port_forward_terminated_witness :
    Event.pfTerminate ∈ main_run
        ⟨false, false, true, fun _ => .error "", fun _ _ => none⟩
        ⟨"image", "webm", 1, none, true, true⟩ :=
  port_forward_terminated _ _ (by
    simp [main_run, includeWebm, includeWebp])

/-- C1 counterexample: with mode `"video"` and format `"webm"`, a history
entry reporting one output file `a.png` yields one extracted entry but zero
downloads — the loop's `continue` (lines 401–402) skips entries whose
extension does not match the selected format, so the number of files
written does not equal the number extracted for all modes and formats. -/
theorem download_count_counterexample :
    extract_files ⟨some ⟨true, some "success", none⟩,
        some [⟨some [.file "a.png" none none], none, none⟩]⟩ =
      [Item.file "a.png" none none] ∧
    download_files "video" "webm"
        (extract_files ⟨some ⟨true, some "success", none⟩,
          some [⟨some [.file "a.png" none none], none, none⟩]⟩) = [] := by
  constructor
  · rfl
  · rfl

/-- C1 amended: the download step performs exactly one local file write per
extracted server output entry that passes the mode/format filter — in video
mode with format webm (resp. webp) an entry whose filename extension is not
`.webm` (resp. `.webp`) is skipped; in image mode, or with format `both`,
every extracted entry is downloaded, so the counts agree. -/
theorem download_per_selected_entry (mode format : String)
    (files : List Item) :
    download_files mode format files =
      (files.filter fun it =>
        fileSelected mode format (itemFilename it)).map itemFilename ∧
    ((mode = "video" → format = "both") →
      (download_files mode format files).length = files.length) := by
  have h1 : download_files mode format files =
      (files.filter fun it =>
        fileSelected mode format (itemFilename it)).map itemFilename := by
    induction files with
    | nil => rfl
    | cons it rest ih =>
      by_cases hp : fileSelected mode format (itemFilename it)
      · simp only [download_files, List.filterMap_cons, List.filter_cons,
          hp, if_pos] at ih ⊢
        simp [ih]
      · have hp2 : fileSelected mode format (itemFilename it) = false := by
          simpa using hp
        simp only [download_files, List.filterMap_cons, List.filter_cons,
          hp2] at ih ⊢
        simp [ih]
  refine ⟨h1, fun hmf => ?_⟩
  have hall : ∀ it ∈ files,
      fileSelected mode format (itemFilename it) = true := by
    intro it _
    unfold fileSelected
    by_cases hm : mode = "video"
    · have hf : format = "both" := hmf hm
      subst hm hf
      simp
    · have hb : (mode == "video") = false := by simp [hm]
      simp [hb]
  rw [h1, List.filter_eq_self.mpr hall]
  simp

/-- Witness for C1 (amended): in image mode every extracted entry is
downloaded, one write per entry. -/
theorem download_per_selected_entry_witness :
    (download_files "image" "webm"
        [Item.file "a.png" none none, Item.file "b.webm" none none]).length
      = 2 := by
  have h := (download_per_selected_entry "image" "webm"
      [Item.file "a.png" none none, Item.file "b.webm" none none]).2
    (fun hv => absurd hv (by decide))
  simpa using h

/-- C4: a completed job whose history entry yields zero extracted output
files makes the run raise `"No output files found in history response."`
(lines 395–396) rather than silently succeed; and extraction over an entry
with no outputs, or only output items lacking a filename, returns the
empty list, triggering exactly that failure. -/
theorem zero_files_run_fails (mode format : String) (entry : HistoryEntry) :
    (extract_files entry = [] →
      main_files_step mode format entry =
        .error "No output files found in history response.") ∧
    ((∀ o ∈ entry.outputs.getD [], ∀ li ∈ [o.images, o.videos, o.gifs],
        ∀ it ∈ li.getD [], it = Item.other) →
      extract_files entry = []) := by
  constructor
  · intro he
    simp [main_files_step, he]
  · intro h
    rw [List.eq_nil_iff_forall_not_mem]
    intro it hit
    simp only [extract_files] at hit
    rw [List.mem_flatMap] at hit
    obtain ⟨o, ho, hin⟩ := hit
    rw [List.mem_flatMap] at hin
    obtain ⟨li, hli, hfil⟩ := hin
    rw [List.mem_filter] at hfil
    obtain ⟨hmem, hp⟩ := hfil
    have hother := h o ho li hli it hmem
    subst hother
    simp at hp

/-- Witness for C4: an entry whose only output item lacks a filename. -/
theorem zero_files_run_fails_witness :
    main_files_step "video" "webm"
        ⟨none, some [⟨none, none, some [Item.other]⟩]⟩ =
      .error "No output files found in history response." :=
  (zero_files_run_fails "video" "webm"
      ⟨none, some [⟨none, none, some [Item.other]⟩]⟩).1 (by rfl)

/-- C6 counterexample: with `--seed 10` and count 2 the seed list is
`[10, 11]` (line 342 appends `args.seed + i`), so not every entry equals
the explicitly supplied seed as the claim states. -/
theorem explicit_seed_not_constant :
    build_seeds 2 (some 10) (fun _ => 0) = [10, 11] ∧
    ¬ (∀ x ∈ build_seeds 2 (some 10) (fun _ => 0), x = 10) := by
  constructor
  · rfl
  · intro h
    have h11 := h 11 (by rw [show build_seeds 2 (some 10) (fun _ => 0) =
      [10, 11] from rfl]; simp)
    exact absurd h11 (by decide)

/-- C6 amended: for every requested count `n ≥ 0` the seed list has length
`n`, and entry `i` is the explicitly supplied base seed plus `i` (when
`--seed` is given) or the `i`-th independently drawn `SystemRandom` value
in `[0, 2^63)` (when `--seed` is absent). -/
theorem build_seeds_spec (count : Int) (s : Int) (draws : Nat → Int)
    (hc : 0 ≤ count) (hd : ∀ i, 0 ≤ draws i ∧ draws i < 2 ^ 63) :
    ((build_seeds count (some s) draws).length : Int) = count ∧
    ((build_seeds count none draws).length : Int) = count ∧
    (∀ i : Nat, (i : Int) < count →
      (build_seeds count (some s) draws)[i]? = some (s + i) ∧
      (build_seeds count none draws)[i]? = some (draws i) ∧
      0 ≤ draws i ∧ draws i < 2 ^ 63) := by
  have hlen : ∀ o : Option Int,
      ((build_seeds count o draws).length : Int) = count := by
    intro o
    simp only [build_seeds, List.length_map, List.length_range]
    omega
  refine ⟨hlen _, hlen _, ?_⟩
  intro i hi
  have hilt : i < count.toNat := by omega
  refine ⟨?_, ?_, (hd i).1, (hd i).2⟩
  · simp [build_seeds, List.getElem?_map, List.getElem?_range hilt]
  · simp [build_seeds, List.getElem?_map, List.getElem?_range hilt]

/-- Witness for C6 (amended) at count 2, base seed 5, draws all 7. -/
theorem build_seeds_spec_witness :
    (build_seeds 2 (some 5) (fun _ => 7))[1]? = some 6 := by
  have h := (build_seeds_spec 2 5 (fun _ => 7) (by decide)
    (fun i => by refine ⟨?_, ?_⟩ <;> simp)).2.2 1 (by decide)
  have h1 := h.1
  norm_num at h1
  exact h1

end WanT2V

namespace BatchGen

/-- `raise_for_status` returns normally on a status outside 4xx/5xx. -/
theorem raise_for_status_ok (r : HttpResp) (h : ¬ isHttpError r) :
    raise_for_status r = .ok () := by
  unfold raise_for_status
  rw [if_neg h]

/-- `raise_for_status` raises on a 4xx/5xx status. -/
theorem raise_for_status_error (r : HttpResp) (h : isHttpError r) :
    raise_for_status r = .error ("HTTP error " ++ toString r.status) := by
  unfold raise_for_status
  rw [if_pos h]

/-- When every response of the index list is outside 4xx/5xx, the loop
posts every index and writes one file per index, in order. -/
theorem genLoop_all_ok (resp : Nat → HttpResp) (pre : String) (l : List Nat)
    (h : ∀ i ∈ l, ¬ isHttpError (resp i)) :
    genLoop resp pre l =
      (l, l.map (fun i => (out_name pre i, (resp i).content)), .ok ()) := by
  induction l with
  | nil => rfl
  | cons i rest ih =>
    have hok := raise_for_status_ok (resp i) (h i (by simp))
    simp only [genLoop, hok]
    rw [ih (fun j hj => h j (by simp [hj]))]
    simp

/-- When the first 4xx/5xx response sits at index `k`, the loop posts the
prefix indices and `k`, writes only the prefix files, and raises. -/
theorem genLoop_first_error (resp : Nat → HttpResp) (pre : String)
    (l1 : List Nat) (k : Nat) (l2 : List Nat)
    (h1 : ∀ i ∈ l1, ¬ isHttpError (resp i)) (hk : isHttpError (resp k)) :
    genLoop resp pre (l1 ++ k :: l2) =
      (l1 ++ [k], l1.map (fun i => (out_name pre i, (resp i).content)),
       .error ("HTTP error " ++ toString (resp k).status)) := by
  induction l1 with
  | nil =>
    rw [List.nil_append]
    simp only [genLoop, raise_for_status_error (resp k) hk]
    simp
  | cons i rest ih =>
    have hok := raise_for_status_ok (resp i) (h1 i (by simp))
    rw [List.cons_append]
    simp only [genLoop, hok]
    rw [ih (fun j hj => h1 j (by simp [hj]))]
    simp

/-- `range(1, n + 1)` splits before a chosen element `k`. -/
theorem idxs_split (n k : Nat) (h1 : 1 ≤ k) (h2 : k ≤ n) :
    (List.range n).map (· + 1) =
      ((List.range (k - 1)).map (· + 1)) ++
        k :: (List.range (n - k)).map (fun i => k + 1 + i) := by
  have hn : n = (k - 1) + (1 + (n - k)) := by omega
  conv_lhs => rw [hn, List.range_add]
  rw [List.map_append]
  congr 1
  rw [List.range_add]
  have hr1 : List.range 1 = [0] := rfl
  rw [hr1]
  simp only [List.map_map, List.map_append, List.map_cons, List.map_nil,
    List.nil_append, List.cons_append, Function.comp_apply,
    List.singleton_append]
  rw [List.cons_eq_cons]
  refine ⟨by omega, ?_⟩
  apply List.map_congr_left
  intro x hx
  simp only [Function.comp_apply]
  omega

/-- C10 amended: for every count `n` and prefix, the batch loop posts the
indices `1..n` in order and, when every response's status lies outside
[400, 600), writes exactly `n` files named `{prefix}_{i:02d}.png` in index
order, each holding the corresponding response body; at the first response
with status in [400, 600) — the codes for which `raise_for_status` raises,
which excludes other non-2xx codes such as redirects — it raises, having
posted indices `1..k` and written files only for indices below `k`. -/
theorem generate_spec (resp : Nat → HttpResp) (pre : String) (n : Nat) :
    ((∀ i, 1 ≤ i → i ≤ n → ¬ isHttpError (resp i)) →
      generate resp pre n =
        ((List.range n).map (· + 1),
         ((List.range n).map (· + 1)).map
           (fun i => (out_name pre i, (resp i).content)),
         .ok ())) ∧
    (∀ k, 1 ≤ k → k ≤ n → isHttpError (resp k) →
      (∀ i, 1 ≤ i → i < k → ¬ isHttpError (resp i)) →
      generate resp pre n =
        ((List.range (k - 1)).map (· + 1) ++ [k],
         ((List.range (k - 1)).map (· + 1)).map
           (fun i => (out_name pre i, (resp i).content)),
         .error ("HTTP error " ++ toString (resp k).status))) := by
  constructor
  · intro h
    apply genLoop_all_ok
    intro i hi
    simp only [List.mem_map, List.mem_range] at hi
    obtain ⟨j, hj, rfl⟩ := hi
    exact h (j + 1) (by omega) (by omega)
  · intro k hk1 hk2 hke hprev
    unfold generate
    rw [idxs_split n k hk1 hk2]
    apply genLoop_first_error
    · intro i hi
      simp only [List.mem_map, List.mem_range] at hi
      obtain ⟨j, hj, rfl⟩ := hi
      exact hprev (j + 1) (by omega) (by omega)
    · exact hke

/-- C10 counterexample: a final status of 304 is not 2xx, yet
`raise_for_status` raises only for 4xx/5xx, so the loop writes the file
and returns normally instead of raising as the claim states. -/
theorem generate_non2xx_counterexample :
    ¬ (200 ≤ 304 ∧ 304 < 300) ∧
    generate (fun _ => ⟨304, [7]⟩) "p" 1 =
      ([1], [("p_01.png", [7])], Except.ok ()) := by
  constructor
  · decide
  · rfl

/-- Witness for C10 (amended): two 200-responses produce two posts and two
files in order. -/
theorem generate_spec_witness :
    generate (fun _ => ⟨200, [1, 2]⟩) "x" 2 =
      ([1, 2], [("x_01.png", [1, 2]), ("x_02.png", [1, 2])],
       Except.ok ()) := by
  have h := (generate_spec (fun _ => ⟨200, [1, 2]⟩) "x" 2).1
    (fun i _ _ => by simp [isHttpError])
  exact h.trans (by rfl)

end BatchGen
